import Mathlib

/-!
Verification of the AI Social Media Caption Creator repository.

The repository consists of a browser client (`frontend/app.js`, present in
full) and a FastAPI backend (described by the specification; its `main.py`
is not part of the available sources, so the backend operations are
modelled from the spec, as marked on each definition).

The client is embedded as pure functions from the relevant inputs (DOM
input values, selected file, fetch outcome) to the list of observable
events the code produces (fetch requests, toast notifications, calls to
`displayResults`).  JavaScript strings are modelled as Lean `String`s;
`jsTrim` below models `text.trim()` and `String.length` models `.length`
(code points standing in for UTF-16 units).
-/

/-- A JSON value, as exchanged between the client and the backend. -/
inductive JsonValue where
  | null : JsonValue
  | bool (b : Bool) : JsonValue
  | num (n : Int) : JsonValue
  | str (s : String) : JsonValue
  | arr (elems : List JsonValue) : JsonValue
  | obj (fields : List (String × JsonValue)) : JsonValue
deriving Repr

/-- Field lookup in a JSON object literal (first match wins, as in the
serialisations produced by the backend). -/
def lookupField : List (String × JsonValue) → String → Option JsonValue
  | [], _ => none
  | (k, v) :: rest, key => if k = key then some v else lookupField rest key

/-- `j.getField k` is `j[k]` when `j` is an object with field `k`,
otherwise `none` (JavaScript `undefined`). -/
def JsonValue.getField : JsonValue → String → Option JsonValue
  | .obj fields, key => lookupField fields key
  | _, _ => none

/-- `{ tone: string, caption: string }` (spec section 3). -/
structure Caption where
  tone : String
  caption : String
deriving Repr, DecidableEq

/-- `{ category: string, hashtags: ordered sequence of string }`. -/
structure HashtagSet where
  category : String
  hashtags : List String
deriving Repr, DecidableEq

/-- `{ time: string, day: string, reason: string }`. -/
structure PostingTime where
  time : String
  day : String
  reason : String
deriving Repr, DecidableEq

/-- `{ contentType, captions, hashtagSets, postingTime }` (spec section 3);
field names follow the JSON wire shape used by `displayResults`
(`content_type`, `captions`, `hashtag_sets`, `posting_time`). -/
structure GenerationResult where
  content_type : String
  captions : List Caption
  hashtag_sets : List HashtagSet
  posting_time : PostingTime
deriving Repr, DecidableEq

/-- Modelled from the spec: JSON encoding of a `Caption` as emitted by the
backend (the backend source is not in the repository snapshot; the wire
field names `tone` and `caption` are fixed by the spec's data model and by
the client's `createCaptionCard`). -/
def encodeCaption (c : Caption) : JsonValue :=
  .obj [("tone", .str c.tone), ("caption", .str c.caption)]

/-- Modelled from the spec: JSON encoding of a `HashtagSet` (wire fields
`category` and `hashtags`, as read by the client's `createHashtagCard`). -/
def encodeHashtagSet (h : HashtagSet) : JsonValue :=
  .obj [("category", .str h.category), ("hashtags", .arr (h.hashtags.map .str))]

/-- Modelled from the spec: JSON encoding of a `PostingTime` (wire fields
`time`, `day`, `reason`, as read by `createPostingTimeContent`). -/
def encodePostingTime (p : PostingTime) : JsonValue :=
  .obj [("time", .str p.time), ("day", .str p.day), ("reason", .str p.reason)]

/-- Modelled from the spec: JSON encoding of a `GenerationResult` (wire
fields `content_type`, `captions`, `hashtag_sets`, `posting_time`, as read
by the client's `displayResults`). -/
def encodeGenerationResult (r : GenerationResult) : JsonValue :=
  .obj [("content_type", .str r.content_type),
        ("captions", .arr (r.captions.map encodeCaption)),
        ("hashtag_sets", .arr (r.hashtag_sets.map encodeHashtagSet)),
        ("posting_time", encodePostingTime r.posting_time)]

/-- Extract a JSON string. -/
def asStr : JsonValue → Option String
  | .str s => some s
  | _ => none

/-- Extract a JSON array. -/
def asArr : JsonValue → Option (List JsonValue)
  | .arr elems => some elems
  | _ => none

/-- Decode every element of a list, failing if any element fails. -/
def mapMOpt (f : α → Option β) : List α → Option (List β)
  | [] => some []
  | a :: as => do
    let b ← f a
    let bs ← mapMOpt f as
    pure (b :: bs)

/-- Modelled from the spec: JSON decoding of a `Caption`. -/
def decodeCaption (j : JsonValue) : Option Caption := do
  let t ← (j.getField "tone").bind asStr
  let c ← (j.getField "caption").bind asStr
  pure ⟨t, c⟩

/-- Modelled from the spec: JSON decoding of a `HashtagSet`. -/
def decodeHashtagSet (j : JsonValue) : Option HashtagSet := do
  let cat ← (j.getField "category").bind asStr
  let tagsJ ← (j.getField "hashtags").bind asArr
  let tags ← mapMOpt asStr tagsJ
  pure ⟨cat, tags⟩

/-- Modelled from the spec: JSON decoding of a `PostingTime`. -/
def decodePostingTime (j : JsonValue) : Option PostingTime := do
  let t ← (j.getField "time").bind asStr
  let d ← (j.getField "day").bind asStr
  let r ← (j.getField "reason").bind asStr
  pure ⟨t, d, r⟩

/-- Modelled from the spec: JSON decoding of a `GenerationResult`. -/
def decodeGenerationResult (j : JsonValue) : Option GenerationResult := do
  let ct ← (j.getField "content_type").bind asStr
  let capsJ ← (j.getField "captions").bind asArr
  let caps ← mapMOpt decodeCaption capsJ
  let setsJ ← (j.getField "hashtag_sets").bind asArr
  let sets ← mapMOpt decodeHashtagSet setsJ
  let ptJ ← j.getField "posting_time"
  let pt ← decodePostingTime ptJ
  pure ⟨ct, caps, sets, pt⟩

lemma mapMOpt_map_of_inverse {f : β → Option α} {g : α → β}
    (hfg : ∀ a, f (g a) = some a) : ∀ l : List α, mapMOpt f (l.map g) = some l := by
  intro l
  induction l with
  | nil => rfl
  | cons a as ih => simp [mapMOpt, hfg, ih]

lemma decodeCaption_encode (c : Caption) : decodeCaption (encodeCaption c) = some c := rfl

lemma decodeHashtagSet_encode (h : HashtagSet) :
    decodeHashtagSet (encodeHashtagSet h) = some h := by
  simp [decodeHashtagSet, encodeHashtagSet, JsonValue.getField, lookupField, asStr, asArr,
    mapMOpt_map_of_inverse (f := asStr) (g := JsonValue.str) (fun _ => rfl)]

lemma decodePostingTime_encode (p : PostingTime) :
    decodePostingTime (encodePostingTime p) = some p := rfl

/-- C8: encoding a `GenerationResult` to JSON and decoding that JSON yields
the original value, field for field. -/
theorem generationResult_json_roundtrip (r : GenerationResult) :
    decodeGenerationResult (encodeGenerationResult r) = some r := by
  simp [decodeGenerationResult, encodeGenerationResult, JsonValue.getField, lookupField,
    asStr, asArr, decodePostingTime_encode,
    mapMOpt_map_of_inverse (f := decodeCaption) (g := encodeCaption) decodeCaption_encode,
    mapMOpt_map_of_inverse (f := decodeHashtagSet) (g := encodeHashtagSet)
      decodeHashtagSet_encode]

/-! ## Backend: parser/validator and request handlers (modelled from the spec) -/

/-- Modelled from the spec: the shape the parser's best-effort decode of
the raw AI text produces before validation/defaulting (spec 4.2).  The
backend source is not in the repository snapshot; field optionality
follows the spec's padding/defaulting policy. -/
structure RawPostingTime where
  time : Option String
  day : Option String
  reason : Option String
deriving Repr, DecidableEq

/-- Modelled from the spec: the decoded-but-unvalidated AI response. -/
structure RawParsed where
  contentType : String
  captions : List Caption
  hashtagSets : List HashtagSet
  postingTime : Option RawPostingTime
deriving Repr, DecidableEq

/-- Modelled from the spec: the clearly-labeled placeholder caption used
when the AI returns fewer than 3 captions. -/
def placeholderCaption : Caption :=
  { tone := "Placeholder", caption := "[No caption generated]" }

/-- Modelled from the spec: the clearly-labeled placeholder hashtag set
used when the AI returns fewer than 3 hashtag sets; its hashtag sequence
is non-empty, as the `GenerationResult` invariant requires. -/
def placeholderHashtagSet : HashtagSet :=
  { category := "Placeholder", hashtags := ["#content"] }

/-- Modelled from the spec: the generic posting-time default used when
posting-time fields are absent ("Anytime", "Any day", explanatory reason). -/
def defaultPostingTime : PostingTime :=
  { time := "Anytime", day := "Any day",
    reason := "No specific recommendation was generated for this content." }

/-- Modelled from the spec: a hashtag set with an empty hashtag sequence is
defaulted to a non-empty one (the parser enforces non-emptiness "by
validation/defaulting, never by silently returning fewer"). -/
def validateHashtagSet (h : HashtagSet) : HashtagSet :=
  if h.hashtags = [] then { h with hashtags := placeholderHashtagSet.hashtags } else h

/-- Pad a list to length 3 with a placeholder, keeping at most the first 3
given entries. -/
def padToThree (placeholder : α) (l : List α) : List α :=
  l.take 3 ++ List.replicate (3 - (l.take 3).length) placeholder

/-- Modelled from the spec: defaulting of the posting time: each absent
field is replaced by its generic default. -/
def validatePostingTime : Option RawPostingTime → PostingTime
  | none => defaultPostingTime
  | some pt =>
    { time := pt.time.getD defaultPostingTime.time,
      day := pt.day.getD defaultPostingTime.day,
      reason := pt.reason.getD defaultPostingTime.reason }

/-- Modelled from the spec: `parse`'s validation/defaulting stage (spec
4.2).  It is total on decoded responses: fewer than 3 captions or hashtag
sets are padded with clearly-labeled placeholders rather than raising, and
absent posting-time fields get the generic default. -/
def parseValidate (raw : RawParsed) : GenerationResult :=
  { content_type := raw.contentType,
    captions := padToThree placeholderCaption raw.captions,
    hashtag_sets := padToThree placeholderHashtagSet (raw.hashtagSets.map validateHashtagSet),
    posting_time := validatePostingTime raw.postingTime }

/-- Backend error taxonomy (spec section 7). -/
inductive BackendError where
  | validationError (msg : String)
  | upstreamError (msg : String)
  | malformedResponseError (msg : String)
deriving Repr, DecidableEq

/-- Outcome of the single adapter invocation, as the handler observes it:
the upstream call fails (`err`), or it returns raw text which the parser's
best-effort decode either cannot decode at all (`ok none`,
`MalformedResponseError`) or decodes to a `RawParsed` (`ok (some raw)`). -/
inductive AdapterOutcome where
  | err (msg : String)
  | ok (decoded : Option RawParsed)
deriving Repr, DecidableEq

/-- Modelled from the spec: `handleTextRequest(textBrief)` (spec 4.3):
validates `textBrief.length >= 10`, then calls the adapter and the parser.
The second component counts adapter invocations (0 or 1), making "without
calling the adapter" observable. -/
def handleTextRequest (textBrief : String) (adapter : AdapterOutcome) :
    Except BackendError GenerationResult × Nat :=
  if textBrief.length < 10 then
    (.error (.validationError "Text brief must be at least 10 characters."), 0)
  else
    match adapter with
    | .err msg => (.error (.upstreamError msg), 1)
    | .ok none => (.error (.malformedResponseError "Could not parse AI response."), 1)
    | .ok (some raw) => (.ok (parseValidate raw), 1)

/-- Modelled from the spec: size ceiling for image uploads; the spec fixes
no value, so a conventional 10 MiB is used. -/
def maxUploadBytes : Nat := 10 * 1024 * 1024

/-- Model of JavaScript `String.prototype.startsWith` (and of a
prefix test on MIME types generally).  Lean's own `String.startsWith`
goes through `Substring` auxiliaries the kernel cannot evaluate, so the
same function is written here over the character lists. -/
def jsStartsWith (s pre : String) : Bool :=
  pre.data.isPrefixOf s.data

/-- Modelled from the spec: `handleImageRequest(fileBytes, mimeType)` (spec
4.3): validates the upload is a non-empty image payload under a size
ceiling; same downstream flow as the text handler. -/
def handleImageRequest (fileBytes : List Nat) (mimeType : String)
    (adapter : AdapterOutcome) : Except BackendError GenerationResult × Nat :=
  if fileBytes = [] ∨ ¬ jsStartsWith mimeType "image/" ∨ maxUploadBytes < fileBytes.length then
    (.error (.validationError "Please upload a valid image file."), 0)
  else
    match adapter with
    | .err msg => (.error (.upstreamError msg), 1)
    | .ok none => (.error (.malformedResponseError "Could not parse AI response."), 1)
    | .ok (some raw) => (.ok (parseValidate raw), 1)

/-- The `GenerationResult` invariant of spec section 3: exactly 3 captions,
exactly 3 hashtag sets, each hashtag set non-empty. -/
def resultWellFormed (r : GenerationResult) : Prop :=
  r.captions.length = 3 ∧ r.hashtag_sets.length = 3 ∧
    ∀ h ∈ r.hashtag_sets, h.hashtags ≠ []

lemma length_padToThree (placeholder : α) (l : List α) :
    (padToThree placeholder l).length = 3 := by
  simp [padToThree]

lemma validateHashtagSet_ne_nil (h : HashtagSet) :
    (validateHashtagSet h).hashtags ≠ [] := by
  unfold validateHashtagSet
  split <;> simp_all [placeholderHashtagSet]

lemma parseValidate_wellFormed (raw : RawParsed) : resultWellFormed (parseValidate raw) := by
  refine ⟨length_padToThree _ _, length_padToThree _ _, ?_⟩
  intro h hmem
  rcases List.mem_append.mp hmem with hmem | hmem
  · rcases List.mem_map.mp (List.mem_of_mem_take hmem) with ⟨h0, _, rfl⟩
    exact validateHashtagSet_ne_nil h0
  · have := List.eq_of_mem_replicate hmem
    subst this
    simp [placeholderHashtagSet]

/-! ## Client: frontend/app.js, embedded as event-producing functions -/

/-- Model of JavaScript `String.prototype.trim`: strip leading and
trailing whitespace.  (Lean's own `String.trim` is implemented with
byte-position auxiliaries that the kernel cannot evaluate, so the same
function is written here over the character list.) -/
def jsTrim (s : String) : String :=
  ⟨((s.data.dropWhile Char.isWhitespace).reverse.dropWhile Char.isWhitespace).reverse⟩

/-- Toast style, the second argument of `showToast` in app.js. -/
inductive ToastKind where
  | success
  | error
deriving Repr, DecidableEq

/-- A `File` as the client sees it: a MIME type and the underlying bytes. -/
structure FileData where
  type : String
  bytes : List Nat
deriving Repr, DecidableEq

/-- Body of a fetch request issued by the client: absent, a JSON document
(`JSON.stringify`), or a multipart form (`FormData`) binding field names
to files. -/
inductive RequestBody where
  | empty
  | json (j : JsonValue)
  | multipart (fields : List (String × FileData))

/-- A fetch request as issued by app.js; `path` is the URL path appended
to `API_BASE_URL`. -/
structure HttpRequest where
  method : String
  path : String
  contentTypeHeader : Option String
  body : RequestBody

/-- An observable action of the client: issuing a fetch request, showing a
toast notification (`showToast`), or rendering a result
(`displayResults`). -/
inductive ClientEvent where
  | fetchReq (req : HttpRequest)
  | toast (message : String) (kind : ToastKind)
  | display (data : JsonValue)

/-- Whether an event is a network request. -/
def ClientEvent.isFetch : ClientEvent → Bool
  | .fetchReq _ => true
  | _ => false

/-- Whether an event is an error-styled toast notification. -/
def ClientEvent.isErrorToast : ClientEvent → Bool
  | .toast _ .error => true
  | _ => false

/-- Whether an event is a call to `displayResults`. -/
def ClientEvent.isDisplay : ClientEvent → Bool
  | .display _ => true
  | _ => false

/-- Outcome of one `fetch` call as app.js observes it: the awaited promise
rejects (network failure, handled by the `catch` branch), or a response
arrives carrying an HTTP status (`response.ok`) and a parsed JSON body.
(A response whose body is not valid JSON would also land in the `catch`
branch; it is modelled as `networkError`.) -/
inductive FetchOutcome where
  | networkError (msg : String)
  | response (ok : Bool) (body : JsonValue)

/-- `data.error || 'Failed to generate captions.'` in app.js.  JavaScript
`||` takes the fallback when the `error` field is absent (`undefined`) or
falsy (in particular, the empty string); a non-string `error` field is
modelled as absent, matching the `{ "error": string }` wire contract. -/
def errorToastMessage (body : JsonValue) : String :=
  match body.getField "error" with
  | some (.str e) => if e = "" then "Failed to generate captions." else e
  | _ => "Failed to generate captions."

/-- The events following `await fetch(...)` shared by both generate
handlers in app.js: on success `displayResults(data)`, on a non-ok
response an error toast with the response's error string, on a rejected
promise an `Error: ...` toast. -/
def afterFetch (outcome : FetchOutcome) : List ClientEvent :=
  match outcome with
  | .networkError msg => [.toast ("Error: " ++ msg) .error]
  | .response ok body =>
    if ok then [.display body] else [.toast (errorToastMessage body) .error]

/-- `generateCaptionsFromText` (app.js:188-219), as a function of the text
area's value and the fetch outcome. -/
def generateCaptionsFromText (textBriefValue : String) (outcome : FetchOutcome) :
    List ClientEvent :=
  let text := jsTrim textBriefValue
  if text = "" ∨ text.length < 10 then
    [.toast "Please enter at least 10 characters." .error]
  else
    .fetchReq { method := "POST", path := "/generate/text",
                contentTypeHeader := some "application/json",
                body := .json (.obj [("text_brief", .str text)]) } ::
      afterFetch outcome

/-- `generateCaptionsFromImage` (app.js:156-185), as a function of the
`selectedImage` state and the fetch outcome. -/
def generateCaptionsFromImage (selectedImage : Option FileData)
    (outcome : FetchOutcome) : List ClientEvent :=
  match selectedImage with
  | none => [.toast "Please select an image first." .error]
  | some file =>
    .fetchReq { method := "POST", path := "/generate/image",
                contentTypeHeader := none,
                body := .multipart [("file", file)] } ::
      afterFetch outcome

/-- Outcome of the health-check fetch: rejected promise, or a response
with an HTTP status (no body is read). -/
inductive HealthOutcome where
  | networkError (msg : String)
  | response (ok : Bool)
deriving Repr, DecidableEq

/-- `checkServerHealth` (app.js:82-91). -/
def checkServerHealth (outcome : HealthOutcome) : List ClientEvent :=
  .fetchReq { method := "GET", path := "/health", contentTypeHeader := none,
              body := .empty } ::
    match outcome with
    | .networkError _ =>
      [.toast "Cannot connect to server. Please start the backend on port 5000." .error]
    | .response ok =>
      if ok then []
      else [.toast "Cannot connect to server. Please ensure the backend is running." .error]

/-- The `DOMContentLoaded` handler (app.js:37-40): `setupEventListeners`
only registers listeners (no network traffic, no toasts), then
`checkServerHealth` runs once. -/
def onPageLoad (outcome : HealthOutcome) : List ClientEvent :=
  checkServerHealth outcome

/-- `file.type.startsWith('image/')`. -/
def isImageFile (f : FileData) : Bool :=
  jsStartsWith f.type "image/"

/-- `handleImageSelect` (app.js:94-102), as a transition on the
`selectedImage` state given `e.target.files`; returns the new state and
the produced events.  (`displayImagePreview` is presentation only.) -/
def handleImageSelect (selectedImage : Option FileData) (files : List FileData) :
    Option FileData × List ClientEvent :=
  match files.head? with
  | some file =>
    if isImageFile file then (some file, [])
    else (selectedImage, [.toast "Please select a valid image file." .error])
  | none => (selectedImage, [.toast "Please select a valid image file." .error])

/-- `handleDrop` (app.js:114-126): identical to `handleImageSelect` on the
`selectedImage` state, with `e.dataTransfer.files` as the file list. -/
def handleDrop (selectedImage : Option FileData) (files : List FileData) :
    Option FileData × List ClientEvent :=
  handleImageSelect selectedImage files

/-- `removeImage` (app.js:139-146): clears the selection. -/
def removeImage (_ : Option FileData) : Option FileData × List ClientEvent :=
  (none, [])

/-- `resetForm` (app.js:350-356): calls `removeImage`; the rest is
presentation. -/
def resetForm (selectedImage : Option FileData) : Option FileData × List ClientEvent :=
  removeImage selectedImage

/-- The operations of app.js that assign the `selectedImage` state. -/
inductive ImageOp where
  | select (files : List FileData)
  | dropFiles (files : List FileData)
  | remove
  | reset

/-- One step of the `selectedImage` state machine. -/
def imageStep (s : Option FileData) : ImageOp → Option FileData × List ClientEvent
  | .select files => handleImageSelect s files
  | .dropFiles files => handleDrop s files
  | .remove => removeImage s
  | .reset => resetForm s

/-- The invariant on the client state: `selectedImage` is `null` or a file
whose MIME type starts with `image/`. -/
def imageInv : Option FileData → Bool
  | none => true
  | some f => isImageFile f

/-! ## Client: HTML escaping (`escapeHtml`) and the unescaping inside
`copyToClipboard` -/

lemma padToThree_of_lt (p : α) (l : List α) (h : l.length < 3) :
    padToThree p l = l ++ List.replicate (3 - l.length) p := by
  have hle : l.length ≤ 3 := by omega
  simp [padToThree, List.take_of_length_le hle]

/-- C1: every `GenerationResult` a handler returns satisfies the data-model
invariant — exactly 3 captions, exactly 3 hashtag sets, every hashtag set
non-empty — and for every valid text brief of length ≥ 10 whose adapter
response decodes, `handleTextRequest` returns such a `GenerationResult`. -/
theorem generationResult_invariant :
    (∀ brief adapter r, (handleTextRequest brief adapter).1 = .ok r → resultWellFormed r) ∧
    (∀ bytes mime adapter r,
      (handleImageRequest bytes mime adapter).1 = .ok r → resultWellFormed r) ∧
    (∀ brief raw, 10 ≤ brief.length →
      (handleTextRequest brief (.ok (some raw))).1 = .ok (parseValidate raw)) := by
  refine ⟨?_, ?_, ?_⟩
  · intro brief adapter r h
    unfold handleTextRequest at h
    by_cases hb : brief.length < 10
    · simp [hb] at h
    · rcases adapter with m | d
      · simp [hb] at h
      · rcases d with _ | raw
        · simp [hb] at h
        · simp [hb] at h
          exact h ▸ parseValidate_wellFormed raw
  · intro bytes mime adapter r h
    unfold handleImageRequest at h
    split at h
    · simp at h
    · rcases adapter with m | d
      · simp at h
      · rcases d with _ | raw
        · simp at h
        · simp at h
          exact h ▸ parseValidate_wellFormed raw
  · intro brief raw h
    have hb : ¬ brief.length < 10 := by omega
    simp [handleTextRequest, hb]

/-- Witness for C1 at a concrete brief and adapter response. -/
theorem generationResult_invariant_witness :
    (handleTextRequest "Launching our new eco-friendly water bottle this summer!"
        (.ok (some { contentType := "text", captions := [], hashtagSets := [],
                     postingTime := none }))).1 =
      .ok (parseValidate { contentType := "text", captions := [], hashtagSets := [],
                           postingTime := none }) ∧
    resultWellFormed (parseValidate { contentType := "text", captions := [],
                                      hashtagSets := [], postingTime := none }) := by
  have h3 := generationResult_invariant.2.2
    "Launching our new eco-friendly water bottle this summer!"
    { contentType := "text", captions := [], hashtagSets := [], postingTime := none }
    (by decide)
  exact ⟨h3, generationResult_invariant.1 _ _ _ h3⟩

/-- C2: a text brief whose trimmed length is below 10 is rejected: the
client shows only the validation toast and issues no fetch, and the
backend handler returns a `ValidationError` with zero adapter calls. -/
theorem shortTextBrief_rejected :
    (∀ v outcome, (jsTrim v).length < 10 →
      generateCaptionsFromText v outcome =
        [.toast "Please enter at least 10 characters." .error]) ∧
    (∀ brief adapter, brief.length < 10 →
      handleTextRequest brief adapter =
        (.error (.validationError "Text brief must be at least 10 characters."), 0)) := by
  constructor
  · intro v outcome h
    have hcond : jsTrim v = "" ∨ (jsTrim v).length < 10 := .inr h
    simp only [generateCaptionsFromText]
    rw [if_pos hcond]
  · intro brief adapter h
    simp [handleTextRequest, h]

/-- Witness for C2 at a concrete short brief. -/
theorem shortTextBrief_rejected_witness :
    generateCaptionsFromText "hi " (.response true .null) =
      [.toast "Please enter at least 10 characters." .error] ∧
    handleTextRequest "hi" (.err "service down") =
      (.error (.validationError "Text brief must be at least 10 characters."), 0) :=
  ⟨shortTextBrief_rejected.1 "hi " (.response true .null) (by decide),
   shortTextBrief_rejected.2 "hi" (.err "service down") (by decide)⟩

/-- C3: the parser does not raise on short AI output: fewer than 3
captions or hashtag sets are padded to exactly 3 with the clearly-labeled
placeholders, and an absent posting time becomes the generic default
("Anytime", "Any day", with an explanatory reason). -/
theorem parser_pads_and_defaults :
    (∀ raw : RawParsed, raw.captions.length < 3 →
      (parseValidate raw).captions =
        raw.captions ++ List.replicate (3 - raw.captions.length) placeholderCaption) ∧
    (∀ raw : RawParsed, raw.hashtagSets.length < 3 →
      (parseValidate raw).hashtag_sets =
        raw.hashtagSets.map validateHashtagSet ++
          List.replicate (3 - raw.hashtagSets.length) placeholderHashtagSet) ∧
    (∀ raw : RawParsed, (parseValidate raw).captions.length = 3 ∧
      (parseValidate raw).hashtag_sets.length = 3) ∧
    (∀ raw : RawParsed, raw.postingTime = none →
      (parseValidate raw).posting_time = defaultPostingTime ∧
        defaultPostingTime.time = "Anytime" ∧ defaultPostingTime.day = "Any day" ∧
        defaultPostingTime.reason ≠ "") := by
  refine ⟨?_, ?_, ?_, ?_⟩
  · intro raw h
    simp [parseValidate, padToThree_of_lt placeholderCaption raw.captions h]
  · intro raw h
    have hm : (raw.hashtagSets.map validateHashtagSet).length < 3 := by
      simpa using h
    simp [parseValidate, padToThree_of_lt placeholderHashtagSet _ hm]
  · intro raw
    exact ⟨length_padToThree _ _, length_padToThree _ _⟩
  · intro raw h
    refine ⟨?_, rfl, rfl, by decide⟩
    simp [parseValidate, validatePostingTime, h]

/-- A simulated AI response with only one caption, no hashtag sets and no
posting time, exercising the padding policy. -/
def sparseAIResponse : RawParsed where
  contentType := "image"
  captions := [{ tone := "Witty", caption := "Shine bright" }]
  hashtagSets := []
  postingTime := none

/-- Witness for C3 at an AI response with a single caption, no hashtag
sets and no posting time. -/
theorem parser_pads_and_defaults_witness :
    (parseValidate sparseAIResponse).captions =
      [{ tone := "Witty", caption := "Shine bright" },
        placeholderCaption, placeholderCaption] ∧
    (parseValidate sparseAIResponse).posting_time = defaultPostingTime := by
  constructor
  · have h := parser_pads_and_defaults.1 sparseAIResponse (by decide)
    simpa [sparseAIResponse] using h
  · exact (parser_pads_and_defaults.2.2.2 sparseAIResponse rfl).1

/-- C4: for every accepted text brief the client issues exactly one fetch:
a POST to `/generate/text` with Content-Type `application/json` and body
exactly the JSON object binding `text_brief` to the trimmed brief. -/
theorem textRequest_shape (v : String) (outcome : FetchOutcome)
    (h : 10 ≤ (jsTrim v).length) :
    (generateCaptionsFromText v outcome).filter ClientEvent.isFetch =
      [.fetchReq { method := "POST", path := "/generate/text",
                   contentTypeHeader := some "application/json",
                   body := .json (.obj [("text_brief", .str (jsTrim v))]) }] := by
  have hcond : ¬ (jsTrim v = "" ∨ (jsTrim v).length < 10) := by
    rintro (he | hlt)
    · rw [he] at h
      exact absurd h (by decide)
    · omega
  simp only [generateCaptionsFromText]
  rw [if_neg hcond]
  rcases outcome with m | ⟨ok, body⟩
  · simp [afterFetch, List.filter, ClientEvent.isFetch]
  · cases ok <;> simp [afterFetch, List.filter, ClientEvent.isFetch]

/-- Witness for C4 at a concrete accepted brief. -/
theorem textRequest_shape_witness :
    (generateCaptionsFromText "Eco-friendly bottles launch"
        (.response true .null)).filter ClientEvent.isFetch =
      [.fetchReq { method := "POST", path := "/generate/text",
                   contentTypeHeader := some "application/json",
                   body := .json (.obj [("text_brief",
                     .str "Eco-friendly bottles launch")]) }] := by
  have h := textRequest_shape "Eco-friendly bottles launch" (.response true .null) (by decide)
  have hj : jsTrim "Eco-friendly bottles launch" = "Eco-friendly bottles launch" := by decide
  rw [hj] at h
  exact h

/-- C5: with a selected image the client issues exactly one fetch: a POST
to `/generate/image` whose multipart body binds the file's bytes under the
form field `file`; with no selection it produces only an error toast and
no fetch. -/
theorem imageRequest_shape :
    (∀ (file : FileData) (outcome : FetchOutcome),
      (generateCaptionsFromImage (some file) outcome).filter ClientEvent.isFetch =
        [.fetchReq { method := "POST", path := "/generate/image",
                     contentTypeHeader := none,
                     body := .multipart [("file", file)] }]) ∧
    (∀ outcome, generateCaptionsFromImage none outcome =
        [.toast "Please select an image first." .error]) := by
  constructor
  · intro file outcome
    rcases outcome with m | ⟨ok, body⟩
    · simp [generateCaptionsFromImage, afterFetch, List.filter, ClientEvent.isFetch]
    · cases ok <;>
        simp [generateCaptionsFromImage, afterFetch, List.filter, ClientEvent.isFetch]
  · intro outcome
    rfl

/-- C6: on a non-ok response to either generate request the client shows
exactly the error toast — the response's `error` string, or the fixed
fallback message when it is absent — and `displayResults` is never
invoked. -/
theorem nonOk_error_surfaced :
    (∀ v body, 10 ≤ (jsTrim v).length →
      generateCaptionsFromText v (.response false body) =
        [.fetchReq { method := "POST", path := "/generate/text",
                     contentTypeHeader := some "application/json",
                     body := .json (.obj [("text_brief", .str (jsTrim v))]) },
          .toast (errorToastMessage body) .error] ∧
      (generateCaptionsFromText v (.response false body)).filter
          ClientEvent.isDisplay = []) ∧
    (∀ file body,
      generateCaptionsFromImage (some file) (.response false body) =
        [.fetchReq { method := "POST", path := "/generate/image",
                     contentTypeHeader := none, body := .multipart [("file", file)] },
          .toast (errorToastMessage body) .error] ∧
      (generateCaptionsFromImage (some file) (.response false body)).filter
          ClientEvent.isDisplay = []) ∧
    (∀ body, (body.getField "error").bind asStr = none →
      errorToastMessage body = "Failed to generate captions.") ∧
    (∀ body e, body.getField "error" = some (.str e) → e ≠ "" →
      errorToastMessage body = e) := by
  refine ⟨?_, ?_, ?_, ?_⟩
  · intro v body h
    have hcond : ¬ (jsTrim v = "" ∨ (jsTrim v).length < 10) := by
      rintro (he | hlt)
      · rw [he] at h
        exact absurd h (by decide)
      · omega
    constructor
    · simp only [generateCaptionsFromText]
      rw [if_neg hcond]
      rfl
    · simp only [generateCaptionsFromText]
      rw [if_neg hcond]
      simp [afterFetch, List.filter, ClientEvent.isDisplay]
  · intro file body
    exact ⟨rfl, by simp [generateCaptionsFromImage, afterFetch, List.filter,
      ClientEvent.isDisplay]⟩
  · intro body h
    rcases hx : body.getField "error" with _ | j
    · simp [errorToastMessage, hx]
    · rcases j with _ | b | n | e | elems | fields <;>
        simp [errorToastMessage, hx]
      rw [hx] at h
      simp [asStr] at h
  · intro body e hx hne
    simp [errorToastMessage, hx, hne]

/-- Witness for C6 at a concrete non-ok response carrying an error string. -/
theorem nonOk_error_surfaced_witness :
    generateCaptionsFromText "A summer candle launch"
        (.response false (.obj [("error", .str "quota exceeded")])) =
      [.fetchReq { method := "POST", path := "/generate/text",
                   contentTypeHeader := some "application/json",
                   body := .json (.obj [("text_brief",
                     .str "A summer candle launch")]) },
        .toast "quota exceeded" .error] := by
  have h := (nonOk_error_surfaced.1 "A summer candle launch"
    (.obj [("error", .str "quota exceeded")]) (by decide)).1
  have hj : jsTrim "A summer candle launch" = "A summer candle launch" := by decide
  have he : errorToastMessage (.obj [("error", .str "quota exceeded")]) =
      "quota exceeded" := by decide
  rw [hj, he] at h
  exact h

/-- C7: page load issues exactly one GET to `/health`, and a cannot-connect
error toast appears iff that request fails or returns a non-ok status; a
200 OK response produces no toast at all. -/
theorem healthCheck_on_load (outcome : HealthOutcome) :
    (onPageLoad outcome).filter ClientEvent.isFetch =
      [.fetchReq { method := "GET", path := "/health", contentTypeHeader := none,
                   body := .empty }] ∧
    ((∃ e ∈ onPageLoad outcome, e.isErrorToast = true) ↔ outcome ≠ .response true) ∧
    onPageLoad (.response true) =
      [.fetchReq { method := "GET", path := "/health", contentTypeHeader := none,
                   body := .empty }] := by
  rcases outcome with m | ok
  · simp [onPageLoad, checkServerHealth, List.filter, ClientEvent.isFetch,
      ClientEvent.isErrorToast]
  · cases ok <;>
      simp [onPageLoad, checkServerHealth, List.filter, ClientEvent.isFetch,
        ClientEvent.isErrorToast]

/-- C10: `selectedImage` is always `null` or a file of MIME type
`image/…`: every assigning operation preserves the invariant, and a
non-image (or empty) selection or drop leaves the state unchanged and
shows the error toast. -/
theorem selectedImage_invariant (s : Option FileData) (op : ImageOp)
    (hs : imageInv s = true) :
    imageInv (imageStep s op).1 = true ∧
    (∀ files, (op = .select files ∨ op = .dropFiles files) →
      (∀ f, files.head? = some f → isImageFile f = false) →
      (imageStep s op).1 = s ∧
        (imageStep s op).2 = [.toast "Please select a valid image file." .error]) := by
  constructor
  · cases op with
    | select files =>
      cases hf : files.head? with
      | none => simpa [imageStep, handleImageSelect, hf] using hs
      | some f =>
        by_cases hi : isImageFile f
        · simp [imageStep, handleImageSelect, hf, hi, imageInv]
        · simpa [imageStep, handleImageSelect, hf, hi] using hs
    | dropFiles files =>
      cases hf : files.head? with
      | none => simpa [imageStep, handleDrop, handleImageSelect, hf] using hs
      | some f =>
        by_cases hi : isImageFile f
        · simp [imageStep, handleDrop, handleImageSelect, hf, hi, imageInv]
        · simpa [imageStep, handleDrop, handleImageSelect, hf, hi] using hs
    | remove => simp [imageStep, removeImage, imageInv]
    | reset => simp [imageStep, resetForm, removeImage, imageInv]
  · intro files hop hni
    rcases hop with rfl | rfl
    · cases hf : files.head? with
      | none => simp [imageStep, handleImageSelect, hf]
      | some f => simp [imageStep, handleImageSelect, hf, hni f hf]
    · cases hf : files.head? with
      | none => simp [imageStep, handleDrop, handleImageSelect, hf]
      | some f => simp [imageStep, handleDrop, handleImageSelect, hf, hni f hf]

/-- Witness for C10: dropping a non-image file on a state holding an image
leaves the selection unchanged and shows the error toast. -/
theorem selectedImage_invariant_witness :
    imageInv (imageStep (some { type := "image/png", bytes := [137, 80] })
        (.select [{ type := "text/plain", bytes := [104, 105] }])).1 = true ∧
    (imageStep (some { type := "image/png", bytes := [137, 80] })
        (.select [{ type := "text/plain", bytes := [104, 105] }])).1 =
      some { type := "image/png", bytes := [137, 80] } ∧
    (imageStep (some { type := "image/png", bytes := [137, 80] })
        (.select [{ type := "text/plain", bytes := [104, 105] }])).2 =
      [.toast "Please select a valid image file." .error] := by
  have h := selectedImage_invariant (some { type := "image/png", bytes := [137, 80] })
    (.select [{ type := "text/plain", bytes := [104, 105] }]) (by decide)
  have h2 := h.2 [{ type := "text/plain", bytes := [104, 105] }] (.inl rfl)
    (by
      intro f hf
      simp at hf
      subst hf
      decide)
  exact ⟨h.1, h2.1, h2.2⟩
